import Mathlib

/-!
Shallow embedding of the interviewAi scoring core
(`src/backend/fluency_analyzer.py`, `src/backend/star_detector.py`,
`src/backend/confidence_tracker.py`) and proofs about its specification.

Modelling conventions:
* Python `float` arithmetic is modelled by exact rationals (`ℚ`); `int(x)`
  is truncation toward zero (`pyInt`), Python `round` is round-half-to-even
  (`pyRound`).
* The spaCy document (`nlp(transcript)`) is an external collaborator; it is
  modelled as an explicit `Doc` argument carrying the token list (text,
  lemma, punctuation flag, stopword flag) and the sentence texts.  All
  theorems quantify over the `Doc`, so they hold for whatever the external
  tokenizer returns; concrete witnesses supply the obvious document of a
  simple transcript.
* Python string primitives (`strip`, `lower`, `upper`, `split`, `count`,
  `in`) are implemented on the character list of the string, structurally,
  so that concrete instances reduce inside the kernel.  Strings are ASCII
  in all concrete inputs; the `\w` class of Python `re` is modelled as
  ASCII alphanumeric or underscore.
-/

/-- Truncation toward zero, Python `int(...)` applied to a float. -/
def pyInt (q : ℚ) : ℤ :=
  if q < 0 then -(⌊-q⌋) else ⌊q⌋

/-- Python `round(...)` to an integer: round half to even. -/
def pyRound (q : ℚ) : ℤ :=
  let f := ⌊q⌋
  let r := q - f
  if r < 1/2 then f
  else if 1/2 < r then f + 1
  else if f % 2 = 0 then f else f + 1

/-- Python `str.strip()`: remove leading and trailing whitespace. -/
def pyStrip (s : String) : String :=
  ⟨(((s.toList.dropWhile Char.isWhitespace).reverse.dropWhile
      Char.isWhitespace).reverse)⟩

/-- Python `str.lower()` (ASCII). -/
def pyLower (s : String) : String :=
  ⟨s.toList.map Char.toLower⟩

/-- Python `str.upper()` (ASCII). -/
def pyUpper (s : String) : String :=
  ⟨s.toList.map Char.toUpper⟩

/-- Helper for `pySplit`, with explicit fuel to keep recursion structural. -/
def pySplitGo : ℕ → List Char → List String
  | 0, _ => []
  | _, [] => []
  | fuel + 1, c :: rest =>
    if c.isWhitespace then pySplitGo fuel rest
    else
      ⟨c :: rest.takeWhile (fun d => ¬ d.isWhitespace)⟩ ::
        pySplitGo fuel (rest.dropWhile (fun d => ¬ d.isWhitespace))

/-- Python `str.split()` with no argument: split on whitespace runs,
dropping empty pieces. -/
def pySplit (s : String) : List String :=
  pySplitGo s.toList.length s.toList

/-- Whether `pat` occurs as a contiguous substring of `hay`
(Python `pat in hay` on strings). -/
def isSubstrList (pat : List Char) : List Char → Bool
  | [] => pat.isEmpty
  | c :: rest => pat.isPrefixOf (c :: rest) || isSubstrList pat rest

/-- Python `pat in hay` for strings. -/
def strContains (hay pat : String) : Bool :=
  isSubstrList pat.toList hay.toList

/-- Helper for `strCount`, with explicit fuel. -/
def countOccGo (pat : List Char) : ℕ → List Char → ℕ
  | 0, _ => 0
  | _, [] => 0
  | fuel + 1, c :: rest =>
    if pat ≠ [] ∧ pat.isPrefixOf (c :: rest) then
      1 + countOccGo pat fuel (rest.drop (pat.length - 1))
    else
      countOccGo pat fuel rest

/-- Python `hay.count(pat)`: number of non-overlapping occurrences of
`pat` in `hay`, scanning left to right. -/
def strCount (hay pat : String) : ℕ :=
  countOccGo pat.toList hay.toList.length hay.toList

example : pySplit "  a  bc " = ["a", "bc"] := by decide
example : pyStrip " hi  " = "hi" := by decide
example : pyLower "Ab C" = "ab c" := by decide
example : pyUpper "situation" = "SITUATION" := by decide
example : pyInt (75/2 : ℚ) = 37 := by norm_num [pyInt]
example : pyInt (-75/2 : ℚ) = -37 := by norm_num [pyInt]
example : pyRound (75/2 : ℚ) = 38 := by norm_num [pyRound]
example : pyRound (77/2 : ℚ) = 38 := by norm_num [pyRound]
example : strContains "hello world" "lo wo" = true := by decide
example : strCount "aaa" "aa" = 1 := by decide
example : strCount "i guess i guess" "i guess" = 2 := by decide

/-! ### Model of the two compiled quantifier regexes

`fluency_analyzer.py` compiles
`\b\d+[\%x]?\b|\b\d+\s*(percent|times|hours|days|weeks|months|years|people|users|ms)\b`
and `star_detector.py` inlines
`\b\d+[\%x]?\b|\b\d+\s*(percent|times|hours|days|people|users)`,
both with `re.IGNORECASE`.  Case insensitivity is modelled by matching on
the lowercased character list; `\w` is ASCII alphanumeric or underscore. -/

def isWordChar (c : Char) : Bool := c.isAlphanum || c = '_'

/-- Whether position `i` of `cs` holds a word character (out of range
counts as non-word). -/
def wordAt (cs : List Char) (i : ℕ) : Bool := isWordChar (cs.getD i ' ')

/-- The `\b` assertion of `re` between positions `i-1` and `i`. -/
def boundaryAt (cs : List Char) (i : ℕ) : Bool :=
  (if i = 0 then false else wordAt cs (i - 1)) != wordAt cs i

/-- Length of the maximal digit run starting at position `i` (the greedy
`\d+`). -/
def digitRunLen (cs : List Char) (i : ℕ) : ℕ :=
  ((cs.drop i).takeWhile Char.isDigit).length

/-- Length of the maximal whitespace run starting at position `i` (the
greedy `\s*`). -/
def spaceRunLen (cs : List Char) (i : ℕ) : ℕ :=
  ((cs.drop i).takeWhile Char.isWhitespace).length

/-- Whether the literal `u` occurs at position `i` of `cs`. -/
def litAt (cs : List Char) (i : ℕ) (u : String) : Bool :=
  (cs.drop i).take u.toList.length == u.toList

/-- Match length at position `i` for the first alternative
`\b\d+[\%x]?\b` (shared by both patterns).  The optional `[\%x]` is tried
greedily first, then dropped, exactly as the backtracking engine does;
`\d+` is effectively maximal because a shorter digit run leaves a digit
right after, which defeats both `[\%x]?` and `\b`. -/
def alt1Len (cs : List Char) (i : ℕ) : Option ℕ :=
  if boundaryAt cs i then
    let d := digitRunLen cs i
    if d = 0 then none
    else
      let j := i + d
      let cj := cs.getD j ' '
      if (cj = '%' || cj = 'x') && boundaryAt cs (j + 1) then some (d + 1)
      else if boundaryAt cs j then some d
      else none
  else none

/-- Match length at position `i` for the second alternative
`\b\d+\s*(unit…)` with the given unit words, requiring a trailing `\b`
when `reqB` is set.  `\d+` and `\s*` are effectively maximal because every
unit word starts with a letter. -/
def alt2Len (units : List String) (reqB : Bool) (cs : List Char) (i : ℕ) :
    Option ℕ :=
  if boundaryAt cs i then
    let d := digitRunLen cs i
    if d = 0 then none
    else
      let j := i + d
      let sp := spaceRunLen cs j
      let k := j + sp
      match units.find?
          (fun u => litAt cs k u &&
            (!reqB || boundaryAt cs (k + u.toList.length))) with
      | some u => some (d + sp + u.toList.length)
      | none => none
  else none

/-- Match length at position `i`: the engine tries the first alternative,
then the second. -/
def quantMatchLenAt (units : List String) (reqB : Bool) (cs : List Char)
    (i : ℕ) : Option ℕ :=
  match alt1Len cs i with
  | some L => some L
  | none => alt2Len units reqB cs i

/-- Unit words of the fluency pattern. -/
def FLUENCY_UNITS : List String :=
  ["percent", "times", "hours", "days", "weeks", "months", "years",
   "people", "users", "ms"]

/-- Unit words of the star-detector pattern. -/
def STAR_UNITS : List String :=
  ["percent", "times", "hours", "days", "people", "users"]

/-- Model of `re.search`: does a match start at some position? -/
def quantSearch (units : List String) (reqB : Bool) (s : String) : Bool :=
  let cs := (pyLower s).toList
  (List.range (cs.length + 1)).any
    (fun i => (quantMatchLenAt units reqB cs i).isSome)

/-- Helper for the `findall` count: scan left to right, skipping past each
match (fuel-structural; every step advances the position). -/
def findallCountGo (units : List String) (reqB : Bool) (cs : List Char) :
    ℕ → ℕ → ℕ
  | 0, _ => 0
  | fuel + 1, i =>
    if cs.length ≤ i then 0
    else
      match quantMatchLenAt units reqB cs i with
      | some L => 1 + findallCountGo units reqB cs fuel (i + L)
      | none => findallCountGo units reqB cs fuel (i + 1)

/-- Model of `len(pattern.findall(s))`: the number of non-overlapping
leftmost matches. -/
def quantFindallCount (units : List String) (reqB : Bool) (s : String) :
    ℕ :=
  let cs := (pyLower s).toList
  findallCountGo units reqB cs (cs.length + 1) 0

/-- Model of `STRONG_QUANTIFIERS.search` of `fluency_analyzer.py`. -/
def strongSearch (s : String) : Bool := quantSearch FLUENCY_UNITS true s

/-- Model of `len(STRONG_QUANTIFIERS.findall(s))` of `fluency_analyzer.py`. -/
def strongFindallCount (s : String) : ℕ :=
  quantFindallCount FLUENCY_UNITS true s

/-- The inline `re.search` of `star_detector.py` (`has_metrics`). -/
def starMetricsSearch (s : String) : Bool := quantSearch STAR_UNITS false s

example : strongSearch "5" = true := by decide
example : strongSearch "5%" = true := by decide
example : strongSearch "5X" = true := by decide
example : strongSearch "5xy" = false := by decide
example : strongSearch "5kg" = false := by decide
example : strongSearch "5percent" = true := by decide
example : strongSearch "5percentile" = false := by decide
example : strongSearch "5ms" = true := by decide
example : strongSearch "5years" = true := by decide
example : strongSearch "a5b" = false := by decide
example : strongSearch "_5_" = false := by decide
example : starMetricsSearch "5percentile" = true := by decide
example : starMetricsSearch "5ms" = false := by decide
example : starMetricsSearch "5years" = false := by decide
example : starMetricsSearch "12 people said" = true := by decide
example : strongFindallCount "5,000" = 2 := by decide
example : strongFindallCount "50% growth" = 1 := by decide
example : strongFindallCount "5 percentx" = 1 := by decide
example : strongSearch "the request took 5ms to finish" = true := by decide
example : starMetricsSearch "the request took 5ms to finish" = false := by decide

/-! ### Embedding of `fluency_analyzer.py`

The spaCy pipeline `nlp` is an external collaborator; `Doc` models its
output: the token sequence (with `text`, `lemma_`, `is_punct`, `is_stop`)
and the sentence texts (`doc.sents`, each taken as its `text`). -/

structure Token where
  text : String
  lemma_ : String
  is_punct : Bool
  is_stop : Bool
deriving DecidableEq, Repr

structure Doc where
  tokens : List Token
  sents : List String
deriving DecidableEq, Repr

/-- The `FILLER_WORDS` table (a Python set; modelled as the list in source order —
it is only consumed through order-independent sums and a per-element
filter). -/
def FILLER_WORDS : List String :=
  ["um", "uh", "umm", "uhh", "hmm",
   "like", "basically", "literally", "actually",
   "right", "okay", "so", "well",
   "you know", "i mean", "you see",
   "i guess", "kind of", "sort of"]

def HEDGE_PHRASES : List String :=
  ["i think", "i guess", "i believe", "maybe",
   "probably", "possibly", "might be", "could be",
   "i\x27m not sure", "i suppose", "somewhat",
   "a little bit", "more or less"]

def WEAK_OPENERS : List String :=
  ["so basically", "um so", "like i said",
   "you know what", "to be honest",
   "i mean like", "well basically"]

def CONFIDENCE_MARKERS : List String :=
  ["i led", "i built", "i designed", "i created",
   "i achieved", "i improved", "i managed", "i developed",
   "i implemented", "i increased", "i reduced", "i delivered",
   "we launched", "i owned", "i drove"]

def VAGUE_QUANTIFIERS : List String :=
  ["many", "some", "a lot", "lots", "several",
   "various", "multiple", "few", "bunch", "tons",
   "stuff", "things", "something", "somehow"]

/-- Count of one filler entry: multi-word entries (containing a space) are
counted as substring occurrences of the lowercased text, single-word
entries as exact token matches. -/
def fillerCountOf (words : List String) (text_lower : String)
    (filler : String) : ℕ :=
  if strContains filler " " then strCount text_lower filler
  else (words.filter (fun w => w == filler)).length

/-- The `total_fillers` sum: the sum of all filler counts (the `> 0` filter kept
for the breakdown dictionary does not change the sum). -/
def totalFillersOf (words : List String) (text_lower : String) : ℕ :=
  (FILLER_WORDS.map (fillerCountOf words text_lower)).sum

/-- The `filler_counts` dictionary: the breakdown dictionary, keeping entries with a
positive count. -/
def fillerBreakdownOf (words : List String) (text_lower : String) :
    List (String × ℕ) :=
  (FILLER_WORDS.map (fun f => (f, fillerCountOf words text_lower f))).filter
    (fun p => 0 < p.2)

/-- The rate `filler_rate = total_fillers / word_count * 100` (0 without words). -/
def fillerRateOf (total_fillers word_count : ℕ) : ℚ :=
  if 0 < word_count then (total_fillers : ℚ) / word_count * 100 else 0

def hedgeCountOf (text_lower : String) : ℕ :=
  (HEDGE_PHRASES.map (strCount text_lower)).sum

def weakOpenerCountOf (text_lower : String) : ℕ :=
  (WEAK_OPENERS.map (strCount text_lower)).sum

def confidenceCountOf (text_lower : String) : ℕ :=
  (CONFIDENCE_MARKERS.map (strCount text_lower)).sum

/-- Vague-quantifier count: only single-word entries are counted, as exact
token matches. -/
def vagueCountOf (words : List String) : ℕ :=
  ((VAGUE_QUANTIFIERS.filter (fun v => ¬ strContains v " ")).map
    (fun v => (words.filter (fun w => w == v)).length)).sum

/-- The `Counter` over a word list: association list in first-occurrence
order (Python dict insertion order). -/
def counterOf (ws : List String) : List (String × ℕ) :=
  ws.foldl
    (fun acc w =>
      if acc.any (fun p => p.1 == w) then
        acc.map (fun p => if p.1 == w then (p.1, p.2 + 1) else p)
      else acc ++ [(w, 1)])
    []

/-- Lemmatized content words: non-stopword, non-punctuation tokens whose
text is longer than 3 characters, lowercased lemmas. -/
def contentWordsOf (doc : Doc) : List String :=
  (doc.tokens.filter
    (fun t => !t.is_stop && !t.is_punct && decide (3 < t.text.length))).map
    (fun t => pyLower t.lemma_)

/-- The `repeated_words` table: lemmas occurring at least 3 times, with counts, in
insertion order. -/
def repeatedWordsOf (doc : Doc) : List (String × ℕ) :=
  (counterOf (contentWordsOf doc)).filter (fun p => 3 ≤ p.2)

/-- All tokenization-derived counters of `analyze_fluency`, gathered in
one record so that concrete instances reduce by `decide`.  Each field is
the Python local of the same name. -/
structure Features where
  word_count : ℕ
  sentence_count : ℕ
  total_fillers : ℕ
  filler_breakdown : List (String × ℕ)
  hedge_count : ℕ
  weak_opener_count : ℕ
  confidence_count : ℕ
  strong_numbers : ℕ
  vague_count : ℕ
  sent_lengths : List ℕ
  very_short_sents : ℕ
  very_long_sents : ℕ
  repeated_words : List (String × ℕ)
deriving DecidableEq, Repr

/-- The `words` list: lowercased texts of the non-punctuation tokens. -/
def wordsOf (doc : Doc) : List String :=
  (doc.tokens.filter (fun t => !t.is_punct)).map (fun t => pyLower t.text)

def featuresOf (doc : Doc) (transcript : String) : Features :=
  let text_lower := pyLower transcript
  let words := wordsOf doc
  let sent_lengths := doc.sents.map (fun s => (pySplit s).length)
  { word_count := words.length
    sentence_count := max doc.sents.length 1
    total_fillers := totalFillersOf words text_lower
    filler_breakdown := fillerBreakdownOf words text_lower
    hedge_count := hedgeCountOf text_lower
    weak_opener_count := weakOpenerCountOf text_lower
    confidence_count := confidenceCountOf text_lower
    strong_numbers := strongFindallCount transcript
    vague_count := vagueCountOf words
    sent_lengths := sent_lengths
    very_short_sents := (sent_lengths.filter (fun l => l < 5)).length
    very_long_sents := (sent_lengths.filter (fun l => 35 < l)).length
    repeated_words := repeatedWordsOf doc }

/-- The score block of `analyze_fluency`: start at 100, apply each capped
penalty and bonus, truncate to an integer and clamp to [0, 100]. -/
def scoreFormula (total_fillers word_count hedge_count weak_opener_count
    vague_count very_short_sents very_long_sents repeated_types
    confidence_count strong_numbers : ℕ) : ℤ :=
  let filler_rate := fillerRateOf total_fillers word_count
  let s : ℚ := 100 - min 30 (filler_rate * 2)
    - min 15 ((hedge_count : ℚ) * 3)
    - min 10 ((weak_opener_count : ℚ) * 5)
    - min 10 ((vague_count : ℚ) * 2)
    - min 10 ((very_short_sents : ℚ) * 3)
    - min 10 ((very_long_sents : ℚ) * 3)
    - min 10 ((repeated_types : ℚ) * 2)
    + min 10 ((confidence_count : ℚ) * 3)
    + min 10 ((strong_numbers : ℚ) * 2)
  max 0 (min 100 (pyInt s))

/-- The pace `wpm = int(word_count / duration_seconds * 60)`. -/
def wpmOf (word_count : ℕ) (duration_seconds : ℚ) : ℤ :=
  pyInt ((word_count : ℚ) / duration_seconds * 60)

def slowNote : String := "Speaking too slowly — try to be more natural"
def fastNote : String := "Speaking too fast — slow down for clarity"
def goodNote : String := "Good speaking pace"

/-- The pacing note chosen when a positive duration was supplied. -/
def pacingNoteOf (wpm : ℤ) : String :=
  if wpm < 100 then slowNote else if 180 < wpm then fastNote else goodNote

/-- Stable insertion into a list sorted by descending count. -/
def insertByCountDesc (p : String × ℕ) :
    List (String × ℕ) → List (String × ℕ)
  | [] => [p]
  | q :: rest =>
    if p.2 < q.2 then q :: insertByCountDesc p rest else p :: q :: rest

/-- Python `sorted(items, key=lambda x: -x[1])`: stable descending sort by
count. -/
def sortByCountDesc (l : List (String × ℕ)) : List (String × ℕ) :=
  l.foldr insertByCountDesc []

/-- The `filler_str` text of the top-3 filler issue. -/
def topFillersStr (breakdown : List (String × ℕ)) : String :=
  ", ".intercalate (((sortByCountDesc breakdown).take 3).map
    (fun p => "\"" ++ p.1 ++ "\" (" ++ toString p.2 ++ "x)"))

/-- The `issues` list of `analyze_fluency` before the pacing rule, in rule
order. -/
def issuesCore (f : Features) (avg_sent_length : ℚ) : List String :=
  (if 5 < f.total_fillers then
    ["Used filler words " ++ toString f.total_fillers ++
      " times — most frequent: " ++ topFillersStr f.filler_breakdown]
   else if 0 < f.total_fillers then
    ["Minor filler words detected (" ++ toString f.total_fillers ++ " times)"]
   else [])
  ++ (if 2 < f.hedge_count then
    ["Hedging language used " ++ toString f.hedge_count ++
      " times — speak with more conviction"]
    else [])
  ++ (if 2 ≤ f.confidence_count then []
    else ["Use more action verbs like \x27I led\x27, \x27I built\x27, \x27I achieved\x27"])
  ++ (if 2 ≤ f.strong_numbers then []
    else if 3 < f.vague_count then
      ["Used vague quantifiers " ++ toString f.vague_count ++
        " times — replace with real numbers"]
    else [])
  ++ (if 30 < avg_sent_length then
      ["Sentences too long — break them up for clarity"]
    else if avg_sent_length < 8 then
      ["Answers too brief — elaborate more on your points"]
    else [])
  ++ (if f.repeated_words ≠ [] then
      ["Overused words: " ++
        ", ".intercalate ((f.repeated_words.take 3).map (fun p => p.1))]
    else [])

/-- The `issues` list of `analyze_fluency`: the rule-ordered core, then
the pacing note when present and not a "Good" note. -/
def buildIssues (f : Features) (avg_sent_length : ℚ) (pacing_note : String) :
    List String :=
  issuesCore f avg_sent_length
    ++ (if pacing_note ≠ "" && !(strContains pacing_note "Good") then
      [pacing_note] else [])

/-- The `strengths` list of `analyze_fluency` before the pacing rule, in
rule order. -/
def strengthsCore (f : Features) (avg_sent_length : ℚ) : List String :=
  (if 5 < f.total_fillers then []
   else if 0 < f.total_fillers then []
   else ["Zero filler words — very clean delivery"])
  ++ (if 2 ≤ f.confidence_count then
      ["Used " ++ toString f.confidence_count ++
        " confident action verbs showing ownership"]
    else [])
  ++ (if 2 ≤ f.strong_numbers then
      ["Backed up points with " ++ toString f.strong_numbers ++
        " specific numbers/metrics"]
    else [])
  ++ (if 30 < avg_sent_length then []
    else if avg_sent_length < 8 then []
    else ["Good sentence structure and length"])

/-- The `strengths` list of `analyze_fluency`: the rule-ordered core, then
the pacing note when present and a "Good" note. -/
def buildStrengths (f : Features) (avg_sent_length : ℚ)
    (pacing_note : String) : List String :=
  strengthsCore f avg_sent_length
    ++ (if pacing_note ≠ "" && strContains pacing_note "Good" then
      [pacing_note] else [])

/-- Python `round(x, 1)`. -/
def pyRound1 (q : ℚ) : ℚ := (pyRound (q * 10) : ℚ) / 10

structure FluencyReport where
  fluency_score : ℤ
  word_count : ℕ
  filler_count : ℕ
  filler_rate_percent : ℚ
  filler_breakdown : List (String × ℕ)
  hedge_count : ℕ
  confidence_markers : ℕ
  specific_numbers_used : ℕ
  vague_words_used : ℕ
  avg_sentence_length : ℚ
  wpm : ℤ
  repeated_words : List String
  issues : List String
  strengths : List String
deriving DecidableEq, Repr

/-- Constant `_empty_result()` of `fluency_analyzer.py`. -/
def emptyResult : FluencyReport :=
  { fluency_score := 0, word_count := 0, filler_count := 0
    filler_rate_percent := 0, filler_breakdown := [], hedge_count := 0
    confidence_markers := 0, specific_numbers_used := 0
    vague_words_used := 0, avg_sentence_length := 0, wpm := 0
    repeated_words := [], issues := ["No transcript detected"]
    strengths := [] }

/-- Assembly of the report from the gathered features (the part of
`analyze_fluency` below the tokenization). -/
def reportFromFeatures (f : Features) (duration_seconds : ℚ) :
    FluencyReport :=
  let avg_sent_length : ℚ := (f.sent_lengths.sum : ℚ) / f.sentence_count
  let wpm := if 0 < duration_seconds then
    wpmOf f.word_count duration_seconds else 0
  let pacing_note := if 0 < duration_seconds then pacingNoteOf wpm else ""
  { fluency_score := scoreFormula f.total_fillers f.word_count
      f.hedge_count f.weak_opener_count f.vague_count f.very_short_sents
      f.very_long_sents f.repeated_words.length f.confidence_count
      f.strong_numbers
    word_count := f.word_count
    filler_count := f.total_fillers
    filler_rate_percent :=
      pyRound1 (fillerRateOf f.total_fillers f.word_count)
    filler_breakdown := f.filler_breakdown
    hedge_count := f.hedge_count
    confidence_markers := f.confidence_count
    specific_numbers_used := f.strong_numbers
    vague_words_used := f.vague_count
    avg_sentence_length := pyRound1 avg_sent_length
    wpm := wpm
    repeated_words := (f.repeated_words.take 5).map (fun p => p.1)
    issues := buildIssues f avg_sent_length pacing_note
    strengths := buildStrengths f avg_sent_length pacing_note }

/-- Function `analyze_fluency(transcript, duration_seconds)` with the external
tokenizer output passed explicitly. -/
def analyze_fluency (doc : Doc) (transcript : String)
    (duration_seconds : ℚ) : FluencyReport :=
  if transcript = "" ∨ (pyStrip transcript).length < 10 then emptyResult
  else reportFromFeatures (featuresOf doc transcript) duration_seconds

/-- A plain word token: its own lemma, not punctuation, not a stopword. -/
def tok (w : String) : Token := ⟨w, w, false, false⟩

/-! ### Embedding of `star_detector.py` -/

def SITUATION_MARKERS : List String :=
  ["at my previous", "when i was", "in my last",
   "we were facing", "the company was", "our team was",
   "i was working at", "during my time", "a few years ago",
   "last year", "in my role as", "while working on",
   "at that time", "the project was", "we had a situation"]

def TASK_MARKERS : List String :=
  ["i was responsible", "my role was", "i needed to",
   "the goal was", "i was asked to", "i had to",
   "my job was", "i was tasked", "it was my responsibility",
   "i was in charge", "i owned", "my objective was"]

def ACTION_MARKERS : List String :=
  ["i decided", "i implemented", "i reached out",
   "i built", "i created", "i developed", "i led",
   "i started", "i worked on", "i collaborated",
   "i designed", "i proposed", "i took",
   "i scheduled", "i organized", "i analyzed",
   "first i", "then i", "next i", "i began"]

def RESULT_MARKERS : List String :=
  ["as a result", "which led to", "we achieved",
   "this resulted in", "the outcome was", "we reduced",
   "we improved", "we increased", "we saved",
   "ultimately", "in the end", "we successfully",
   "the impact was", "this helped", "we delivered"]

structure StarReport where
  star_score : ℤ
  components_found : ℕ
  situation_found : Bool
  task_found : Bool
  action_found : Bool
  result_found : Bool
  present : List String
  missing : List String
  has_metrics : Bool
  feedback : List String
  strengths : List String
deriving DecidableEq, Repr

/-- Constant `_empty_star()` of `star_detector.py`. -/
def emptyStar : StarReport :=
  ⟨0, 0, false, false, false, false, [],
   ["SITUATION", "TASK", "ACTION", "RESULT"], false,
   ["No transcript detected"], []⟩

/-- Function `detect_star(transcript)`: no tokenization is involved, only
case-insensitive substring tests and the inline numeric pattern. -/
def detect_star (transcript : String) : StarReport :=
  if transcript = "" ∨ (pyStrip transcript).length < 20 then emptyStar
  else
    let text_lower := pyLower transcript
    let situation_found := SITUATION_MARKERS.any (fun m => strContains text_lower m)
    let task_found := TASK_MARKERS.any (fun m => strContains text_lower m)
    let action_found := ACTION_MARKERS.any (fun m => strContains text_lower m)
    let result_phrase := RESULT_MARKERS.any (fun m => strContains text_lower m)
    let has_metrics := starMetricsSearch transcript
    let result_found := result_phrase || has_metrics
    let components : List (String × Bool) :=
      [("situation", situation_found), ("task", task_found),
       ("action", action_found), ("result", result_found)]
    let found_count : ℕ := (components.map (fun p => if p.2 then 1 else 0)).sum
    let score := pyInt ((found_count : ℚ) / 4 * 100)
    let missing := (components.filter (fun p => !p.2)).map (fun p => pyUpper p.1)
    let present := (components.filter (fun p => p.2)).map (fun p => pyUpper p.1)
    let feedback :=
      (if !situation_found then
        ["Missing SITUATION — set the scene with context first"] else [])
      ++ (if !task_found then
        ["Missing TASK — clarify your specific responsibility"] else [])
      ++ (if !action_found then
        ["Missing ACTION — describe the exact steps you took"] else [])
      ++ (if !result_found then
        ["Missing RESULT — state the outcome with numbers if possible"] else [])
    let strengths :=
      (if action_found then
        ["Good use of action verbs showing what you did"] else [])
      ++ (if result_found && has_metrics then
          ["Excellent — backed up result with specific metrics"]
        else if result_found then
          ["Result mentioned — try adding specific numbers next time"]
        else [])
      ++ (if found_count = 4 then
        ["Complete STAR structure — very well organized answer"] else [])
    ⟨score, found_count, situation_found, task_found, action_found,
     result_found, present, missing, has_metrics, feedback, strengths⟩

/-! ### Embedding of `confidence_tracker.py` -/

/-- One entry of the `emotion_timeline` list: a dictionary read only
through `e.get("stress"/"confidence"/"neutral", default)`, so each key is
modelled as optional (its `timestamp` key is never read). -/
structure EmotionSnapshot where
  stress : Option ℚ
  confidence : Option ℚ
  neutral : Option ℚ
deriving DecidableEq, Repr

structure EmoAvg where
  stress : ℚ
  confidence : ℚ
  neutral : ℚ
deriving DecidableEq, Repr

/-- Function `avg_emotions(segment)`: fallback constants for an empty segment, else
the arithmetic means of the per-key values with per-key defaults. -/
def avg_emotions (segment : List EmotionSnapshot) : EmoAvg :=
  if segment = [] then ⟨3/10, 1/2, 4/10⟩
  else
    ⟨(segment.map (fun e => e.stress.getD (3/10))).sum / segment.length,
     (segment.map (fun e => e.confidence.getD (1/2))).sum / segment.length,
     (segment.map (fun e => e.neutral.getD (4/10))).sum / segment.length⟩

/-- The per-segment subset of the fluency report stored in
`scores[part_name]`. -/
structure SegScores where
  fluency_score : ℤ
  filler_count : ℕ
  confidence_markers : ℕ
  hedge_count : ℕ
deriving DecidableEq, Repr

def segScoresOf (r : FluencyReport) : SegScores :=
  ⟨r.fluency_score, r.filler_count, r.confidence_markers, r.hedge_count⟩

structure TrendReport where
  trend : String
  trend_label : String
  trend_color : String
  beginning_score : ℤ
  middle_score : ℤ
  end_score : ℤ
  segment_details : Option (SegScores × SegScores × SegScores)
  emotion_segments : Option EmoAvg × Option EmoAvg × Option EmoAvg
  feedback : List String
  strengths : List String
deriving DecidableEq, Repr

/-- Constant `_empty_trend()` of `confidence_tracker.py` (its empty
`segment_details`/`emotion_segments` dictionaries are the `none` values).  -/
def emptyTrend : TrendReport :=
  ⟨"unknown", "Not enough speech to analyze trend", "#ffffff40",
   0, 0, 0, none, (none, none, none),
   ["Answer too short for trend analysis"], []⟩

/-- The word split into thirds: `third = total // 3`,
`words[:third]`, `words[third:third*2]`, `words[third*2:]`. -/
def segmentWords (words : List String) : List String × List String × List String :=
  let third := words.length / 3
  (words.take third, (words.drop third).take third, words.drop (third * 2))

/-- The three segment sub-transcripts, re-joined with single spaces. -/
def partsOf (transcript : String) : String × String × String :=
  let seg := segmentWords (pySplit transcript)
  (" ".intercalate seg.1, " ".intercalate seg.2.1, " ".intercalate seg.2.2)

/-- The trend bucket chain on `diff = end_score - beginning_score`:
(label, display label, color). -/
def trendOfDiff (diff : ℤ) : String × String × String :=
  if 15 ≤ diff then
    ("strongly_improving",
     "Strongly Improving — you build confidence as you speak", "#00ff88")
  else if 5 ≤ diff then
    ("improving", "Improving — good momentum through your answer", "#00d4ff")
  else if -5 ≤ diff then
    ("stable", "Consistent — steady confidence throughout", "#ffb300")
  else if -15 ≤ diff then
    ("declining", "Trailing off — strong start but lost momentum", "#ff8c00")
  else
    ("strongly_declining",
     "Significant drop — confidence fell towards the end", "#ff3d71")

/-- Function `combined_score(part)`: `int(fluency * 0.6 + emo_conf * 100 * 0.4)`
where `emo_conf` is the averaged confidence of the part, or the 0.5
default when the emotion dictionary of the part is empty. -/
def combinedScore (fluency : ℤ) (seg : Option EmoAvg) : ℤ :=
  pyInt ((fluency : ℚ) * (6/10) +
    ((seg.map (fun a => a.confidence)).getD (1/2)) * 100 * (4/10))

/-- The emotion timeline split into thirds by snapshot count
(`t = n // 3`), each averaged; with an empty or missing timeline the three
segment dictionaries stay empty. -/
def emotionSegmentsOf (timeline : List EmotionSnapshot) :
    Option EmoAvg × Option EmoAvg × Option EmoAvg :=
  if timeline = [] then (none, none, none)
  else
    let t := timeline.length / 3
    (some (avg_emotions (timeline.take t)),
     some (avg_emotions ((timeline.drop t).take t)),
     some (avg_emotions (timeline.drop (t * 2))))

/-- Function `track_confidence(transcript, emotion_timeline, duration_seconds)`,
with the external tokenizer supplied as a map from each segment
sub-transcript to its document. -/
def track_confidence (docOf : String → Doc) (transcript : String)
    (emotion_timeline : List EmotionSnapshot) (duration_seconds : ℚ) :
    TrendReport :=
  if transcript = "" ∨ (pyStrip transcript).length < 30 then emptyTrend
  else if (pySplit transcript).length < 9 then emptyTrend
  else
    let parts := partsOf transcript
    let seg_duration := if 0 < duration_seconds then duration_seconds / 3 else 0
    let sb := segScoresOf (analyze_fluency (docOf parts.1) parts.1 seg_duration)
    let sm := segScoresOf (analyze_fluency (docOf parts.2.1) parts.2.1 seg_duration)
    let se := segScoresOf (analyze_fluency (docOf parts.2.2) parts.2.2 seg_duration)
    let emo := emotionSegmentsOf emotion_timeline
    let beginning_score := combinedScore sb.fluency_score emo.1
    let middle_score := combinedScore sm.fluency_score emo.2.1
    let end_score := combinedScore se.fluency_score emo.2.2
    let diff := end_score - beginning_score
    let bucket := trendOfDiff diff
    let feedback :=
      (if beginning_score < 50 then
        ["Nervous start — try pausing and breathing before answering"] else [])
      ++ (if middle_score < beginning_score - 10 then
        ["Lost momentum in the middle — practice smooth transitions"] else [])
      ++ (if 75 ≤ end_score then []
        else if end_score < 50 then
          ["Weak ending — conclude with a clear result statement"]
        else [])
      ++ (if se.filler_count < sb.filler_count then []
        else if sb.filler_count + 2 < se.filler_count then
          ["Filler words increased towards end — try not to rush"]
        else [])
    let strengths :=
      (if beginning_score < 50 then []
        else if 70 ≤ beginning_score then ["Strong confident opening"]
        else [])
      ++ (if 75 ≤ end_score then
        ["Finished strongly — great closing impact"] else [])
      ++ (if se.filler_count < sb.filler_count then
        ["Filler words decreased as you spoke — good self-correction"] else [])
    ⟨bucket.1, bucket.2.1, bucket.2.2, beginning_score, middle_score,
     end_score, some (sb, sm, se), emo, feedback, strengths⟩

/-! ### Auxiliary definitions used by the theorems -/

/-- Sum of the filler counts over every filler entry other than
"i guess". -/
def restFillersOf (words : List String) (text_lower : String) : ℕ :=
  ((FILLER_WORDS.filter (fun f => f ≠ "i guess")).map
    (fillerCountOf words text_lower)).sum

/-- Sum of the hedge counts over every hedge phrase other than
"i guess". -/
def restHedgesOf (text_lower : String) : ℕ :=
  ((HEDGE_PHRASES.filter (fun p => p ≠ "i guess")).map
    (strCount text_lower)).sum

/-- First character of a string (space for the empty string); used to
separate feedback strings built with different fixed prefixes. -/
def firstChar (s : String) : Char := s.toList.headD ' '

/-- A stopword token (its own lemma, not punctuation). -/
def stopTok (w : String) : Token := ⟨w, w, false, true⟩

/-! Concrete inputs for witnesses and counterexamples, with the obvious
documents the external tokenizer produces for them. -/

def docABG : Doc := ⟨[tok "alpha", tok "beta", tok "gamma"], ["alpha beta gamma"]⟩
def docDEZ : Doc := ⟨[tok "delta", tok "epsilon", tok "zeta"], ["delta epsilon zeta"]⟩
def docETI : Doc := ⟨[tok "eta", tok "theta", tok "iota"], ["eta theta iota"]⟩

def nineWordTranscript : String :=
  "alpha beta gamma delta epsilon zeta eta theta iota"

/-- Tokenizer for the three segment sub-transcripts of
`nineWordTranscript`. -/
def nineWordDocOf : String → Doc := fun s =>
  if s = "alpha beta gamma" then docABG
  else if s = "delta epsilon zeta" then docDEZ
  else if s = "eta theta iota" then docETI
  else ⟨[], []⟩

/-- A single emotion snapshot whose confidence value 5.0 lies far outside
[0, 1]. -/
def overTimeline : List EmotionSnapshot := [⟨none, some 5, none⟩]

/-- A single all-defaults snapshot (every key missing). -/
def defaultTimeline : List EmotionSnapshot := [⟨none, none, none⟩]

def fiveWordTranscript : String := "alpha beta gamma delta epsilon"
def fiveWordDoc : Doc :=
  ⟨[tok "alpha", tok "beta", tok "gamma", tok "delta", tok "epsilon"],
   ["alpha beta gamma delta epsilon"]⟩

def hiDoc : Doc := ⟨[tok "hi"], ["hi"]⟩

def guessTranscript : String := "well i guess that works fine"
def guessDoc : Doc :=
  ⟨[stopTok "well", stopTok "i", tok "guess", stopTok "that",
    ⟨"works", "work", false, false⟩, tok "fine"],
   ["well i guess that works fine"]⟩

def starTranscript : String :=
  "when i was on the team i needed to fix the pipeline so first i analyzed the failures and as a result we improved uptime"

def metricsTranscript : String := "we served 120 users daily at peak"

def msTranscript : String := "the request took 5ms to finish"

def tenWordTranscript : String :=
  "one two three four five six seven eight nine ten"

/-! ### General lemmas about the embedded arithmetic -/

theorem pyInt_of_nonneg {q : ℚ} (h : 0 ≤ q) : pyInt q = ⌊q⌋ := by
  simp [pyInt, not_lt.2 h]

theorem pyInt_mono {a b : ℚ} (h : a ≤ b) : pyInt a ≤ pyInt b := by
  unfold pyInt
  rcases lt_or_le a 0 with ha | ha <;> rcases lt_or_le b 0 with hb | hb
  · rw [if_pos ha, if_pos hb]
    have := Int.floor_le_floor (neg_le_neg h)
    omega
  · rw [if_pos ha, if_neg (not_lt.2 hb)]
    have h1 : (0 : ℤ) ≤ ⌊-a⌋ := Int.floor_nonneg.2 (by linarith)
    have h2 : (0 : ℤ) ≤ ⌊b⌋ := Int.floor_nonneg.2 hb
    omega
  · exact absurd (lt_of_le_of_lt h hb) (not_lt.2 ha)
  · rw [if_neg (not_lt.2 ha), if_neg (not_lt.2 hb)]
    exact Int.floor_le_floor h

theorem pyInt_bounds {q : ℚ} (h0 : 0 ≤ q) (h1 : q ≤ 100) :
    0 ≤ pyInt q ∧ pyInt q ≤ 100 := by
  rw [pyInt_of_nonneg h0]
  constructor
  · exact Int.floor_nonneg.2 h0
  · calc ⌊q⌋ ≤ ⌊(100 : ℚ)⌋ := Int.floor_le_floor h1
    _ = 100 := by norm_num

theorem scoreFormula_bounds (a b c d e f g h i j : ℕ) :
    0 ≤ scoreFormula a b c d e f g h i j ∧
      scoreFormula a b c d e f g h i j ≤ 100 := by
  unfold scoreFormula
  refine ⟨le_max_left _ _, ?_⟩
  exact max_le (by norm_num) (min_le_left _ _)

theorem fluency_score_bounds (doc : Doc) (t : String) (d : ℚ) :
    0 ≤ (analyze_fluency doc t d).fluency_score ∧
      (analyze_fluency doc t d).fluency_score ≤ 100 := by
  unfold analyze_fluency
  split_ifs with h
  · simp [emptyResult]
  · exact scoreFormula_bounds _ _ _ _ _ _ _ _ _ _

/-! ### C6: trend bucket boundaries -/

/-- C6: the trend chain of `track_confidence` classifies
`diff = end_score - beginning_score` with inclusive thresholds
`diff ≥ 15 / ≥ 5 / ≥ -5 / ≥ -15 / else`: diff 15 is strongly_improving,
14 and 5 improving, 4 and -5 stable, -6 and -15 declining, -16
strongly_declining, and each bucket carries its fixed label and color. -/
theorem trend_bucket_boundaries :
    (trendOfDiff 15).1 = "strongly_improving" ∧
    (trendOfDiff 14).1 = "improving" ∧
    (trendOfDiff 5).1 = "improving" ∧
    (trendOfDiff 4).1 = "stable" ∧
    (trendOfDiff (-5)).1 = "stable" ∧
    (trendOfDiff (-6)).1 = "declining" ∧
    (trendOfDiff (-15)).1 = "declining" ∧
    (trendOfDiff (-16)).1 = "strongly_declining" ∧
    (∀ diff : ℤ,
      (15 ≤ diff → trendOfDiff diff =
        ("strongly_improving",
         "Strongly Improving — you build confidence as you speak",
         "#00ff88")) ∧
      (5 ≤ diff → diff < 15 → trendOfDiff diff =
        ("improving", "Improving — good momentum through your answer",
         "#00d4ff")) ∧
      (-5 ≤ diff → diff < 5 → trendOfDiff diff =
        ("stable", "Consistent — steady confidence throughout", "#ffb300")) ∧
      (-15 ≤ diff → diff < -5 → trendOfDiff diff =
        ("declining", "Trailing off — strong start but lost momentum",
         "#ff8c00")) ∧
      (diff < -15 → trendOfDiff diff =
        ("strongly_declining",
         "Significant drop — confidence fell towards the end", "#ff3d71"))) := by
  refine ⟨by decide, by decide, by decide, by decide, by decide, by decide,
    by decide, by decide, ?_⟩
  intro diff
  refine ⟨?_, ?_, ?_, ?_, ?_⟩ <;> intros <;> unfold trendOfDiff <;>
    split_ifs <;> first | rfl | omega

/-- Witness for C6: the general bucket implications applied at concrete
diffs. -/
theorem trend_bucket_boundaries_witness :
    trendOfDiff 20 =
      ("strongly_improving",
       "Strongly Improving — you build confidence as you speak",
       "#00ff88") ∧
    trendOfDiff 0 =
      ("stable", "Consistent — steady confidence throughout", "#ffb300") ∧
    trendOfDiff (-30) =
      ("strongly_declining",
       "Significant drop — confidence fell towards the end", "#ff3d71") :=
  ⟨(trend_bucket_boundaries.2.2.2.2.2.2.2.2 20).1 (by decide),
   ((trend_bucket_boundaries.2.2.2.2.2.2.2.2 0).2.2.1 (by decide) (by decide)),
   ((trend_bucket_boundaries.2.2.2.2.2.2.2.2 (-30)).2.2.2.2 (by decide))⟩

/-! ### C4: segmentation into thirds -/

/-- C4: the trend aggregator splits the word list with
`third = total // 3`, `words[:third]`, `words[third:2*third]`,
`words[2*third:]`; a 9-word transcript yields segment lengths (3,3,3) and
a 10-word transcript (3,3,4), the end segment absorbing the remainder. -/
theorem segmentation_thirds :
    (∀ t : String, (pySplit t).length = 9 →
      (segmentWords (pySplit t)).1.length = 3 ∧
      (segmentWords (pySplit t)).2.1.length = 3 ∧
      (segmentWords (pySplit t)).2.2.length = 3) ∧
    (∀ t : String, (pySplit t).length = 10 →
      (segmentWords (pySplit t)).1.length = 3 ∧
      (segmentWords (pySplit t)).2.1.length = 3 ∧
      (segmentWords (pySplit t)).2.2.length = 4) ∧
    (∀ ws : List String,
      segmentWords ws =
        (ws.take (ws.length / 3),
         (ws.drop (ws.length / 3)).take (ws.length / 3),
         ws.drop ((ws.length / 3) * 2))) := by
  refine ⟨?_, ?_, fun ws => rfl⟩ <;>
    · intro t h
      unfold segmentWords
      simp only [List.length_take, List.length_drop, h]
      decide

/-- Witness for C4: segment lengths of a concrete 9-word and a concrete
10-word transcript. -/
theorem segmentation_thirds_witness :
    ((segmentWords (pySplit nineWordTranscript)).1.length = 3 ∧
     (segmentWords (pySplit nineWordTranscript)).2.1.length = 3 ∧
     (segmentWords (pySplit nineWordTranscript)).2.2.length = 3) ∧
    ((segmentWords (pySplit tenWordTranscript)).1.length = 3 ∧
     (segmentWords (pySplit tenWordTranscript)).2.1.length = 3 ∧
     (segmentWords (pySplit tenWordTranscript)).2.2.length = 4) :=
  ⟨segmentation_thirds.1 nineWordTranscript (by decide),
   segmentation_thirds.2.1 tenWordTranscript (by decide)⟩

/-! ### C9: degenerate-input gates -/

/-- C9: a transcript whose trimmed length is below 10 characters yields
the canonical empty fluency report (score 0, the single issue
"No transcript detected", no strengths) for every tokenizer output and
duration, and a transcript whose trimmed length is below 20 characters
yields the canonical empty structure report (all four components missing,
score 0). -/
theorem degenerate_floor :
    (∀ (doc : Doc) (t : String) (d : ℚ), (pyStrip t).length < 10 →
      analyze_fluency doc t d = emptyResult) ∧
    (∀ t : String, (pyStrip t).length < 20 → detect_star t = emptyStar) ∧
    emptyResult.fluency_score = 0 ∧
    emptyResult.issues = ["No transcript detected"] ∧
    emptyResult.strengths = [] ∧
    emptyStar.star_score = 0 ∧
    emptyStar.components_found = 0 ∧
    emptyStar.missing = ["SITUATION", "TASK", "ACTION", "RESULT"] ∧
    emptyStar.strengths = [] := by
  refine ⟨?_, ?_, by decide, by decide, by decide, by decide, by decide,
    by decide, by decide⟩
  · intro doc t d h
    unfold analyze_fluency
    rw [if_pos (Or.inr h)]
  · intro t h
    unfold detect_star
    rw [if_pos (Or.inr h)]

/-- Witness for C9 at the transcript "hi" (trimmed length 2). -/
theorem degenerate_floor_witness :
    analyze_fluency hiDoc "hi" 0 = emptyResult ∧
    detect_star "hi" = emptyStar :=
  ⟨degenerate_floor.1 hiDoc "hi" 0 (by decide),
   degenerate_floor.2.1 "hi" (by decide)⟩

/-! ### C2: the detector numeric pattern vs the fluency pattern -/

/-- C2 counterexample: on "the request took 5ms to finish" (trimmed length
30, so past the detector gate) the strong-quantifier pattern of the
fluency scorer matches (unit word `ms`), yet `detect_star` reports
`has_metrics = false`, because its inline pattern lacks the `weeks`,
`months`, `years`, `ms` unit words.  So the detector does not use the same
matcher. -/
theorem star_metrics_not_strong_counterexample :
    20 ≤ (pyStrip msTranscript).length ∧
    strongSearch msTranscript = true ∧
    (detect_star msTranscript).has_metrics = false := by
  refine ⟨by decide, by decide, ?_⟩
  unfold detect_star
  rw [if_neg (by decide)]
  decide

/-- C2 amended: past the 20-character gate, `has_metrics` is true exactly
when the own inline pattern of the detector matches — the same bare-integer
alternative as the fluency pattern but with unit words limited to
`percent`, `times`, `hours`, `days`, `people`, `users` and no trailing
word boundary after the unit — and a true `has_metrics` forces the Result
component to present. -/
theorem star_metrics_amended :
    ∀ t : String, 20 ≤ (pyStrip t).length →
      (detect_star t).has_metrics = starMetricsSearch t ∧
      ((detect_star t).has_metrics = true →
        (detect_star t).result_found = true) := by
  intro t h
  have he : (pyStrip "").length = 0 := by decide
  have hg : ¬(t = "" ∨ (pyStrip t).length < 20) := by
    rintro (rfl | hlt) <;> omega
  unfold detect_star
  rw [if_neg hg]
  refine ⟨rfl, ?_⟩
  intro hm
  simp only at hm ⊢
  rw [hm, Bool.or_true]

/-- Witness for C2 (amended) at a transcript with numeric evidence. -/
theorem star_metrics_amended_witness :
    (detect_star metricsTranscript).has_metrics =
      starMetricsSearch metricsTranscript ∧
    ((detect_star metricsTranscript).has_metrics = true →
      (detect_star metricsTranscript).result_found = true) :=
  star_metrics_amended metricsTranscript (by decide)

/-! ### C7: structure completeness and score -/

theorem pyIntQuarter (n : ℕ) : pyInt ((n : ℚ) / 4 * 100) = 25 * (n : ℤ) := by
  rw [pyInt_of_nonneg (by positivity)]
  have h : ((n : ℚ) / 4 * 100) = ((25 * n : ℕ) : ℚ) := by push_cast; ring
  rw [h, Int.floor_natCast]
  push_cast
  ring

/-- C7: a transcript past the 20-character gate containing a trigger
phrase of each of the four narrative families has all four components
found and structure score 100; and for every transcript the score equals
`int(components_found / 4 * 100) = 25 * components_found` with
`components_found ≤ 4`, hence lies in {0, 25, 50, 75, 100}. -/
theorem star_completeness :
    (∀ t : String, 20 ≤ (pyStrip t).length →
      SITUATION_MARKERS.any (fun m => strContains (pyLower t) m) = true →
      TASK_MARKERS.any (fun m => strContains (pyLower t) m) = true →
      ACTION_MARKERS.any (fun m => strContains (pyLower t) m) = true →
      RESULT_MARKERS.any (fun m => strContains (pyLower t) m) = true →
      (detect_star t).components_found = 4 ∧
      (detect_star t).star_score = 100) ∧
    (∀ t : String,
      (detect_star t).star_score =
        pyInt (((detect_star t).components_found : ℚ) / 4 * 100) ∧
      (detect_star t).star_score = 25 * ((detect_star t).components_found : ℤ) ∧
      (detect_star t).components_found ≤ 4) := by
  constructor
  · intro t hlen hs ht ha hr
    have hg : ¬(t = "" ∨ (pyStrip t).length < 20) := by
      have he : (pyStrip "").length = 0 := by decide
      rintro (rfl | hlt) <;> omega
    unfold detect_star
    rw [if_neg hg]
    simp only [hs, ht, ha, hr, Bool.true_or, List.map, List.sum_cons,
      List.sum_nil, if_true]
    refine ⟨rfl, ?_⟩
    have h4 : (1 + (1 + (1 + (1 + 0))) : ℕ) = 4 := by norm_num
    rw [h4, pyIntQuarter 4]
    norm_num
  · intro t
    unfold detect_star
    split_ifs with hg
    · refine ⟨?_, ?_, ?_⟩
      · have := pyIntQuarter 0
        simp only [emptyStar, Nat.cast_zero] at this ⊢
        rw [this]
        norm_num
      · simp [emptyStar]
      · simp [emptyStar]
    · refine ⟨rfl, pyIntQuarter _, ?_⟩
      simp only [List.map, List.sum_cons, List.sum_nil]
      split_ifs <;> omega

/-- Witness for C7 at a transcript with one trigger phrase per family. -/
theorem star_completeness_witness :
    (detect_star starTranscript).components_found = 4 ∧
    (detect_star starTranscript).star_score = 100 :=
  star_completeness.1 starTranscript (by decide) (by decide) (by decide)
    (by decide) (by decide)

/-! ### C10: "i guess" counted as filler and as hedge -/

theorem fillerCountOf_iguess (words : List String) (tl : String) :
    fillerCountOf words tl "i guess" = strCount tl "i guess" := by
  unfold fillerCountOf
  rw [if_pos (by decide)]

theorem totalFillers_split (words : List String) (tl : String) :
    totalFillersOf words tl =
      fillerCountOf words tl "i guess" + restFillersOf words tl := by
  have hl : FILLER_WORDS.filter (fun f => f ≠ "i guess") =
      ["um", "uh", "umm", "uhh", "hmm",
       "like", "basically", "literally", "actually",
       "right", "okay", "so", "well",
       "you know", "i mean", "you see",
       "kind of", "sort of"] := by decide
  simp only [totalFillersOf, restFillersOf]
  rw [hl]
  simp only [FILLER_WORDS, List.map_cons, List.map_nil, List.sum_cons,
    List.sum_nil]
  ring

theorem hedge_split (tl : String) :
    hedgeCountOf tl = strCount tl "i guess" + restHedgesOf tl := by
  have hl : HEDGE_PHRASES.filter (fun p => p ≠ "i guess") =
      ["i think", "i believe", "maybe",
       "probably", "possibly", "might be", "could be",
       "i\x27m not sure", "i suppose", "somewhat",
       "a little bit", "more or less"] := by decide
  simp only [hedgeCountOf, restHedgesOf]
  rw [hl]
  simp only [HEDGE_PHRASES, List.map_cons, List.map_nil, List.sum_cons,
    List.sum_nil]
  ring

/-- C10: "i guess" appears in both the filler table and the hedge list,
so past the 10-character gate every occurrence of "i guess" in the
lowercased transcript is counted into `filler_count` (on top of the other
filler entries) and into `hedge_count` (on top of the other hedge
phrases), feeding both the filler-rate penalty and the hedge penalty. -/
theorem i_guess_double_counted :
    ("i guess" ∈ FILLER_WORDS ∧ "i guess" ∈ HEDGE_PHRASES) ∧
    (∀ (doc : Doc) (t : String) (d : ℚ), 10 ≤ (pyStrip t).length →
      (analyze_fluency doc t d).filler_count =
        strCount (pyLower t) "i guess" +
          restFillersOf (wordsOf doc) (pyLower t) ∧
      (analyze_fluency doc t d).hedge_count =
        strCount (pyLower t) "i guess" + restHedgesOf (pyLower t)) := by
  refine ⟨⟨by decide, by decide⟩, ?_⟩
  intro doc t d h
  have hg : ¬(t = "" ∨ (pyStrip t).length < 10) := by
    have he : (pyStrip "").length = 0 := by decide
    rintro (rfl | hlt) <;> omega
  unfold analyze_fluency
  rw [if_neg hg]
  unfold reportFromFeatures featuresOf
  refine ⟨?_, ?_⟩
  · show totalFillersOf (wordsOf doc) (pyLower t) = _
    rw [totalFillers_split, fillerCountOf_iguess]
  · show hedgeCountOf (pyLower t) = _
    rw [hedge_split]

/-- Witness for C10 at "well i guess that works fine". -/
theorem i_guess_double_counted_witness :
    (analyze_fluency guessDoc guessTranscript 0).filler_count =
      strCount (pyLower guessTranscript) "i guess" +
        restFillersOf (wordsOf guessDoc) (pyLower guessTranscript) ∧
    (analyze_fluency guessDoc guessTranscript 0).hedge_count =
      strCount (pyLower guessTranscript) "i guess" +
        restHedgesOf (pyLower guessTranscript) :=
  i_guess_double_counted.2 guessDoc guessTranscript 0 (by decide)

/-! ### C8: monotonicity of the filler penalty -/

theorem fillerRate_step (tf wc : ℕ) (h : tf ≤ wc) :
    fillerRateOf tf wc ≤ fillerRateOf (tf + 1) (wc + 1) := by
  unfold fillerRateOf
  rw [if_pos (Nat.succ_pos wc)]
  by_cases hw : 0 < wc
  · rw [if_pos hw]
    have hwq : (0 : ℚ) < wc := by exact_mod_cast hw
    have hw1 : (0 : ℚ) < (wc : ℚ) + 1 := by linarith
    have htf : (tf : ℚ) ≤ wc := by exact_mod_cast h
    push_cast
    rw [div_mul_eq_mul_div, div_mul_eq_mul_div, div_le_div_iff₀ hwq hw1]
    nlinarith
  · rw [if_neg hw]
    positivity

/-- C8: adding one more occurrence of a filler word — one more counted
filler and one more word, all other features unchanged — never increases
the fluency score, and once the filler-rate penalty has saturated at its
cap of 30 points (rate ≥ 15) the score stays exactly the same. -/
theorem filler_penalty_monotone :
    ∀ (tf wc hc wk v vs vl rp cf st : ℕ), tf ≤ wc →
      scoreFormula (tf + 1) (wc + 1) hc wk v vs vl rp cf st ≤
        scoreFormula tf wc hc wk v vs vl rp cf st ∧
      (15 ≤ fillerRateOf tf wc →
        scoreFormula (tf + 1) (wc + 1) hc wk v vs vl rp cf st =
          scoreFormula tf wc hc wk v vs vl rp cf st) := by
  intro tf wc hc wk v vs vl rp cf st h
  have hr := fillerRate_step tf wc h
  constructor
  · unfold scoreFormula
    apply max_le_max le_rfl
    apply min_le_min le_rfl
    apply pyInt_mono
    have hmin : min (30 : ℚ) (fillerRateOf tf wc * 2) ≤
        min (30 : ℚ) (fillerRateOf (tf + 1) (wc + 1) * 2) :=
      min_le_min le_rfl (by linarith)
    linarith
  · intro hsat
    have h1 : min (30 : ℚ) (fillerRateOf tf wc * 2) = 30 :=
      min_eq_left (by linarith)
    have h2 : min (30 : ℚ) (fillerRateOf (tf + 1) (wc + 1) * 2) = 30 :=
      min_eq_left (by linarith)
    unfold scoreFormula
    dsimp only
    rw [h1, h2]

/-- Witness for C8: a saturated instance (rate 20%, so the cap of 30 is
active): 2 fillers in 10 words against 3 fillers in 11 words. -/
theorem filler_penalty_monotone_witness :
    scoreFormula 3 11 0 0 0 0 0 0 0 0 ≤ scoreFormula 2 10 0 0 0 0 0 0 0 0 ∧
    scoreFormula 3 11 0 0 0 0 0 0 0 0 = scoreFormula 2 10 0 0 0 0 0 0 0 0 :=
  ⟨(filler_penalty_monotone 2 10 0 0 0 0 0 0 0 0 (by norm_num)).1,
   (filler_penalty_monotone 2 10 0 0 0 0 0 0 0 0 (by norm_num)).2
     (by norm_num [fillerRateOf])⟩

/-! ### C3: wpm and the pacing note -/

theorem firstChar_append (a b : String) (h : a.toList ≠ []) :
    firstChar (a ++ b) = firstChar a := by
  simp only [firstChar, String.toList, String.data_append] at *
  cases hd : a.data with
  | nil => exact absurd hd h
  | cons c cs => simp [hd]

theorem firstChar_of_append₁ (a b : String) (c : Char) (ha : a.toList ≠ [])
    (hc : firstChar a = c) : firstChar (a ++ b) = c := by
  rw [firstChar_append a b ha, hc]

theorem firstChar_of_append₂ (a b d : String) (c : Char) (ha : a.toList ≠ [])
    (hc : firstChar a = c) : firstChar ((a ++ b) ++ d) = c := by
  rw [String.append_assoc]
  exact firstChar_of_append₁ a _ c ha hc

theorem firstChar_of_append₃ (a b d e : String) (c : Char)
    (ha : a.toList ≠ []) (hc : firstChar a = c) :
    firstChar (((a ++ b) ++ d) ++ e) = c := by
  rw [String.append_assoc, String.append_assoc]
  exact firstChar_of_append₁ a _ c ha hc

theorem eq_of_mem_ite_singleton {α : Type} {c : Prop} [Decidable c]
    {x a : α} (h : x ∈ (if c then [a] else [])) : x = a := by
  split_ifs at h
  · exact List.mem_singleton.1 h
  · exact absurd h (List.not_mem_nil x)

theorem eq_of_mem_ite₂ {α : Type} {c c' : Prop} [Decidable c] [Decidable c']
    {x a b : α} (h : x ∈ (if c then [a] else if c' then [b] else [])) :
    x = a ∨ x = b := by
  split_ifs at h
  · exact Or.inl (List.mem_singleton.1 h)
  · exact Or.inr (List.mem_singleton.1 h)
  · exact absurd h (List.not_mem_nil x)

theorem eq_of_mem_ite₁n {α : Type} {c : Prop} [Decidable c]
    {x a : α} (h : x ∈ (if c then [] else [a])) : x = a := by
  split_ifs at h
  · exact absurd h (List.not_mem_nil x)
  · exact List.mem_singleton.1 h

theorem eq_of_mem_ite₂n {α : Type} {c c' : Prop} [Decidable c] [Decidable c']
    {x a : α} (h : x ∈ (if c then [] else if c' then [a] else [])) :
    x = a := by
  split_ifs at h
  · exact absurd h (List.not_mem_nil x)
  · exact List.mem_singleton.1 h
  · exact absurd h (List.not_mem_nil x)

theorem eq_of_mem_ite₂z {α : Type} {c c' : Prop} [Decidable c] [Decidable c']
    {x a : α} (h : x ∈ (if c then [] else if c' then [] else [a])) :
    x = a := by
  split_ifs at h
  · exact absurd h (List.not_mem_nil x)
  · exact absurd h (List.not_mem_nil x)
  · exact List.mem_singleton.1 h

/-- The pacing notes start with `S` while every string the issue core can
contain starts differently or is a different fixed string, so neither
pacing issue can come from the core rules. -/
theorem pacing_not_in_issuesCore (f : Features) (avg : ℚ) (x : String)
    (hx : x = slowNote ∨ x = fastNote) : x ∉ issuesCore f avg := by
  intro hmem
  have hS : firstChar x = 'S' := by rcases hx with rfl | rfl <;> decide
  unfold issuesCore at hmem
  simp only [List.mem_append] at hmem
  rcases hmem with ((((h | h) | h) | h) | h) | h
  · rcases eq_of_mem_ite₂ h with he | he
    · have hU : firstChar x = 'U' := by
        rw [he]; exact firstChar_of_append₃ _ _ _ _ 'U' (by decide) (by decide)
      rw [hU] at hS
      exact absurd hS (by decide)
    · have hM : firstChar x = 'M' := by
        rw [he]; exact firstChar_of_append₂ _ _ _ 'M' (by decide) (by decide)
      rw [hM] at hS
      exact absurd hS (by decide)
  · have he := eq_of_mem_ite_singleton h
    have hH : firstChar x = 'H' := by
      rw [he]; exact firstChar_of_append₂ _ _ _ 'H' (by decide) (by decide)
    rw [hH] at hS
    exact absurd hS (by decide)
  · have he := eq_of_mem_ite₁n h
    rcases hx with rfl | rfl <;> exact absurd he (by decide)
  · have he := eq_of_mem_ite₂n h
    have hU : firstChar x = 'U' := by
      rw [he]; exact firstChar_of_append₂ _ _ _ 'U' (by decide) (by decide)
    rw [hU] at hS
    exact absurd hS (by decide)
  · rcases eq_of_mem_ite₂ h with he | he <;>
      rcases hx with rfl | rfl <;> exact absurd he (by decide)
  · have he := eq_of_mem_ite_singleton h
    have hO : firstChar x = 'O' := by
      rw [he]; exact firstChar_of_append₁ _ _ 'O' (by decide) (by decide)
    rw [hO] at hS
    exact absurd hS (by decide)

/-- The "Good speaking pace" note cannot come from the strengths core. -/
theorem good_not_in_strengthsCore (f : Features) (avg : ℚ) :
    goodNote ∉ strengthsCore f avg := by
  intro hmem
  unfold strengthsCore at hmem
  simp only [List.mem_append] at hmem
  rcases hmem with ((h | h) | h) | h
  · exact absurd (eq_of_mem_ite₂z h) (by decide)
  · have he := eq_of_mem_ite_singleton h
    have hU : firstChar goodNote = 'U' := by
      rw [he]; exact firstChar_of_append₂ _ _ _ 'U' (by decide) (by decide)
    exact absurd hU (by decide)
  · have he := eq_of_mem_ite_singleton h
    have hB : firstChar goodNote = 'B' := by
      rw [he]; exact firstChar_of_append₂ _ _ _ 'B' (by decide) (by decide)
    exact absurd hB (by decide)
  · exact absurd (eq_of_mem_ite₂z h) (by decide)

/-- C3 amended: past the 10-character gate and with a positive duration,
`wpm` is the truncation `int(word_count / duration * 60)` (not round
half-to-even), and the pacing note is the "too slow" issue exactly when
wpm < 100, the "too fast" issue exactly when wpm > 180, and the "good
pace" strength exactly when 100 ≤ wpm ≤ 180. -/
theorem wpm_truncation_and_pacing :
    ∀ (doc : Doc) (t : String) (d : ℚ), 10 ≤ (pyStrip t).length → 0 < d →
      (analyze_fluency doc t d).wpm =
        pyInt (((analyze_fluency doc t d).word_count : ℚ) / d * 60) ∧
      (slowNote ∈ (analyze_fluency doc t d).issues ↔
        (analyze_fluency doc t d).wpm < 100) ∧
      (fastNote ∈ (analyze_fluency doc t d).issues ↔
        180 < (analyze_fluency doc t d).wpm) ∧
      (goodNote ∈ (analyze_fluency doc t d).strengths ↔
        (100 ≤ (analyze_fluency doc t d).wpm ∧
         (analyze_fluency doc t d).wpm ≤ 180)) := by
  intro doc t d hlen hd
  have hg : ¬(t = "" ∨ (pyStrip t).length < 10) := by
    have he : (pyStrip "").length = 0 := by decide
    rintro (rfl | hlt) <;> omega
  unfold analyze_fluency reportFromFeatures
  rw [if_neg hg]
  dsimp only
  simp only [if_pos hd]
  set f := featuresOf doc t with hf
  set A : ℚ := (f.sent_lengths.sum : ℚ) / f.sentence_count with hA
  set W : ℤ := wpmOf f.word_count d with hW
  refine ⟨rfl, ?_⟩
  by_cases h1 : W < 100
  · have hp : pacingNoteOf W = slowNote := by
      unfold pacingNoteOf
      rw [if_pos h1]
    rw [hp]
    refine ⟨iff_of_true ?_ h1, iff_of_false ?_ (by omega), iff_of_false ?_ (by omega)⟩
    · exact List.mem_append_right _
        (by rw [if_pos (by decide)]; exact List.mem_singleton.2 rfl)
    · intro hm
      rcases List.mem_append.1 hm with hc | hp2
      · exact pacing_not_in_issuesCore f A fastNote (Or.inr rfl) hc
      · exact absurd (eq_of_mem_ite_singleton hp2) (by decide)
    · intro hm
      rcases List.mem_append.1 hm with hc | hp2
      · exact good_not_in_strengthsCore f A hc
      · exact absurd (eq_of_mem_ite_singleton hp2) (by decide)
  · by_cases h2 : 180 < W
    · have hp : pacingNoteOf W = fastNote := by
        unfold pacingNoteOf
        rw [if_neg h1, if_pos h2]
      rw [hp]
      refine ⟨iff_of_false ?_ h1, iff_of_true ?_ h2, iff_of_false ?_ (by omega)⟩
      · intro hm
        rcases List.mem_append.1 hm with hc | hp2
        · exact pacing_not_in_issuesCore f A slowNote (Or.inl rfl) hc
        · exact absurd (eq_of_mem_ite_singleton hp2) (by decide)
      · exact List.mem_append_right _
          (by rw [if_pos (by decide)]; exact List.mem_singleton.2 rfl)
      · intro hm
        rcases List.mem_append.1 hm with hc | hp2
        · exact good_not_in_strengthsCore f A hc
        · exact absurd (eq_of_mem_ite_singleton hp2) (by decide)
    · have hp : pacingNoteOf W = goodNote := by
        unfold pacingNoteOf
        rw [if_neg h1, if_neg h2]
      rw [hp]
      refine ⟨iff_of_false ?_ h1, iff_of_false ?_ h2,
        iff_of_true ?_ ⟨not_lt.1 h1, not_lt.1 h2⟩⟩
      · intro hm
        rcases List.mem_append.1 hm with hc | hp2
        · exact pacing_not_in_issuesCore f A slowNote (Or.inl rfl) hc
        · exact absurd (eq_of_mem_ite_singleton hp2) (by decide)
      · intro hm
        rcases List.mem_append.1 hm with hc | hp2
        · exact pacing_not_in_issuesCore f A fastNote (Or.inr rfl) hc
        · exact absurd (eq_of_mem_ite_singleton hp2) (by decide)
      · exact List.mem_append_right _
          (by rw [if_pos (by decide)]; exact List.mem_singleton.2 rfl)

/-- C3 counterexample: 5 words in 8 seconds give `5 / 8 * 60 = 37.5`;
the code stores `int(37.5) = 37` while the specified `round(37.5)` is 38,
so `wpm` is not the rounded value. -/
theorem wpm_rounding_counterexample :
    (analyze_fluency fiveWordDoc fiveWordTranscript 8).wpm = 37 ∧
    pyRound (((analyze_fluency fiveWordDoc fiveWordTranscript 8).word_count :
      ℚ) / 8 * 60) = 38 ∧
    (analyze_fluency fiveWordDoc fiveWordTranscript 8).wpm ≠
      pyRound (((analyze_fluency fiveWordDoc fiveWordTranscript
        8).word_count : ℚ) / 8 * 60) := by
  have hfe : featuresOf fiveWordDoc fiveWordTranscript =
      ⟨5, 1, 0, [], 0, 0, 0, 0, 0, [5], 0, 0, []⟩ := by decide
  unfold analyze_fluency
  rw [if_neg (by decide)]
  rw [hfe]
  unfold reportFromFeatures
  dsimp only
  rw [if_pos (by norm_num : (0 : ℚ) < 8)]
  refine ⟨?_, ?_, ?_⟩ <;> norm_num [wpmOf, pyInt, pyRound]

/-- Witness for C3 (amended) at 5 words in 8 seconds. -/
theorem wpm_truncation_and_pacing_witness :
    (analyze_fluency fiveWordDoc fiveWordTranscript 8).wpm =
      pyInt (((analyze_fluency fiveWordDoc fiveWordTranscript
        8).word_count : ℚ) / 8 * 60) ∧
    (slowNote ∈ (analyze_fluency fiveWordDoc fiveWordTranscript 8).issues ↔
      (analyze_fluency fiveWordDoc fiveWordTranscript 8).wpm < 100) ∧
    (fastNote ∈ (analyze_fluency fiveWordDoc fiveWordTranscript 8).issues ↔
      180 < (analyze_fluency fiveWordDoc fiveWordTranscript 8).wpm) ∧
    (goodNote ∈ (analyze_fluency fiveWordDoc fiveWordTranscript
        8).strengths ↔
      (100 ≤ (analyze_fluency fiveWordDoc fiveWordTranscript 8).wpm ∧
       (analyze_fluency fiveWordDoc fiveWordTranscript 8).wpm ≤ 180)) :=
  wpm_truncation_and_pacing fiveWordDoc fiveWordTranscript 8 (by decide)
    (by norm_num)

/-! ### C1 and C5: combined scores and emotion fallbacks -/

theorem list_sum_le_length (l : List ℚ) (h : ∀ x ∈ l, x ≤ 1) :
    l.sum ≤ l.length := by
  induction l with
  | nil => simp
  | cons a as ih =>
    simp only [List.sum_cons, List.length_cons]
    have ha := h a (by simp)
    have has := ih (fun x hx => h x (by simp [hx]))
    push_cast
    push_cast at has
    linarith

/-- The averaged confidence of a segment lies in [0, 1] whenever every
snapshot has its (defaulted) confidence there; the empty-segment fallback 0.5
also lies in [0, 1]. -/
theorem avg_conf_bounds (seg : List EmotionSnapshot)
    (h : ∀ e ∈ seg, 0 ≤ e.confidence.getD (1/2) ∧
      e.confidence.getD (1/2) ≤ 1) :
    0 ≤ (avg_emotions seg).confidence ∧ (avg_emotions seg).confidence ≤ 1 := by
  unfold avg_emotions
  split_ifs with hs
  · norm_num
  · dsimp only
    have hlen : 0 < seg.length := List.length_pos.2 hs
    have hlq : (0 : ℚ) < seg.length := by exact_mod_cast hlen
    constructor
    · apply div_nonneg _ (le_of_lt hlq)
      apply List.sum_nonneg
      intro x hx
      obtain ⟨e, he, rfl⟩ := List.mem_map.1 hx
      exact (h e he).1
    · rw [div_le_one hlq]
      have hb := list_sum_le_length
        (seg.map (fun e => e.confidence.getD (1/2))) ?_
      · simpa using hb
      · intro x hx
        obtain ⟨e, he, rfl⟩ := List.mem_map.1 hx
        exact (h e he).2

theorem combinedScore_bounds (fl : ℤ) (hfl : 0 ≤ fl ∧ fl ≤ 100)
    (seg : Option EmoAvg)
    (hseg : 0 ≤ ((seg.map (fun a => a.confidence)).getD (1/2)) ∧
      ((seg.map (fun a => a.confidence)).getD (1/2)) ≤ 1) :
    0 ≤ combinedScore fl seg ∧ combinedScore fl seg ≤ 100 := by
  unfold combinedScore
  have hq0 : (0 : ℚ) ≤ (fl : ℚ) := by exact_mod_cast hfl.1
  have hq1 : (fl : ℚ) ≤ 100 := by exact_mod_cast hfl.2
  apply pyInt_bounds
  · nlinarith [hseg.1]
  · nlinarith [hseg.2]

/-- All three timeline segments pass on the confidence bounds. -/
theorem segment_conf_bounds (tl : List EmotionSnapshot)
    (h : ∀ e ∈ tl, 0 ≤ e.confidence.getD (1/2) ∧
      e.confidence.getD (1/2) ≤ 1) :
    (0 ≤ (((emotionSegmentsOf tl).1.map (fun a => a.confidence)).getD (1/2)) ∧
      (((emotionSegmentsOf tl).1.map (fun a => a.confidence)).getD (1/2)) ≤ 1) ∧
    (0 ≤ (((emotionSegmentsOf tl).2.1.map (fun a => a.confidence)).getD (1/2)) ∧
      (((emotionSegmentsOf tl).2.1.map (fun a => a.confidence)).getD (1/2)) ≤ 1) ∧
    (0 ≤ (((emotionSegmentsOf tl).2.2.map (fun a => a.confidence)).getD (1/2)) ∧
      (((emotionSegmentsOf tl).2.2.map (fun a => a.confidence)).getD (1/2)) ≤ 1) := by
  unfold emotionSegmentsOf
  split_ifs with he
  · norm_num
  · dsimp only
    simp only [Option.map_some', Option.getD_some]
    refine ⟨?_, ?_, ?_⟩
    · exact avg_conf_bounds _ (fun e he2 => h e (List.mem_of_mem_take he2))
    · exact avg_conf_bounds _ (fun e he2 =>
        h e (List.mem_of_mem_drop (List.mem_of_mem_take he2)))
    · exact avg_conf_bounds _ (fun e he2 => h e (List.mem_of_mem_drop he2))

/-- C1 amended: the three TrendReport segment combined scores lie in
[0, 100] whenever the confidence of every supplied snapshot (or its 0.5
default when the key is missing) lies in [0, 1].  Out-of-range confidence
values are NOT clamped (see the counterexample). -/
theorem combined_scores_in_range :
    ∀ (docOf : String → Doc) (t : String) (tl : List EmotionSnapshot)
      (d : ℚ),
      (∀ e ∈ tl, 0 ≤ e.confidence.getD (1/2) ∧
        e.confidence.getD (1/2) ≤ 1) →
      (0 ≤ (track_confidence docOf t tl d).beginning_score ∧
        (track_confidence docOf t tl d).beginning_score ≤ 100) ∧
      (0 ≤ (track_confidence docOf t tl d).middle_score ∧
        (track_confidence docOf t tl d).middle_score ≤ 100) ∧
      (0 ≤ (track_confidence docOf t tl d).end_score ∧
        (track_confidence docOf t tl d).end_score ≤ 100) := by
  intro docOf t tl d h
  unfold track_confidence
  by_cases h1 : (t = "" ∨ (pyStrip t).length < 30)
  · rw [if_pos h1]
    refine ⟨?_, ?_, ?_⟩ <;> norm_num [emptyTrend]
  · rw [if_neg h1]
    by_cases h2 : (pySplit t).length < 9
    · rw [if_pos h2]
      refine ⟨?_, ?_, ?_⟩ <;> norm_num [emptyTrend]
    · rw [if_neg h2]
      dsimp only
      have hb := segment_conf_bounds tl h
      exact ⟨combinedScore_bounds _ (fluency_score_bounds _ _ _) _ hb.1,
        combinedScore_bounds _ (fluency_score_bounds _ _ _) _ hb.2.1,
        combinedScore_bounds _ (fluency_score_bounds _ _ _) _ hb.2.2⟩

/-- Witness for C1 (amended): a nine-word transcript with one all-default
snapshot. -/
theorem combined_scores_in_range_witness :
    (0 ≤ (track_confidence nineWordDocOf nineWordTranscript defaultTimeline
        0).beginning_score ∧
      (track_confidence nineWordDocOf nineWordTranscript defaultTimeline
        0).beginning_score ≤ 100) ∧
    (0 ≤ (track_confidence nineWordDocOf nineWordTranscript defaultTimeline
        0).middle_score ∧
      (track_confidence nineWordDocOf nineWordTranscript defaultTimeline
        0).middle_score ≤ 100) ∧
    (0 ≤ (track_confidence nineWordDocOf nineWordTranscript defaultTimeline
        0).end_score ∧
      (track_confidence nineWordDocOf nineWordTranscript defaultTimeline
        0).end_score ≤ 100) :=
  combined_scores_in_range nineWordDocOf nineWordTranscript defaultTimeline 0
    (by
      intro e he
      rw [List.mem_singleton.1 he]
      norm_num [Option.getD])

/-- C1 counterexample: a timeline whose single snapshot carries confidence
5.0 (outside [0, 1]) drives the end-segment combined score to 258 — far
above 100 — because `combined_score` does not clamp the emotion value. -/
theorem combined_scores_in_range_counterexample :
    100 < (track_confidence nineWordDocOf nineWordTranscript overTimeline
      0).end_score := by
  unfold track_confidence
  rw [if_neg (by decide), if_neg (by decide)]
  dsimp only [segScoresOf]
  have hparts : (partsOf nineWordTranscript).2.2 = "eta theta iota" := by
    decide
  rw [hparts]
  rw [show (if (0 : ℚ) < 0 then (0 : ℚ) / 3 else 0) = 0 from by norm_num]
  have hdoc : nineWordDocOf "eta theta iota" = docETI := by decide
  rw [hdoc]
  have hfl : (analyze_fluency docETI "eta theta iota" 0).fluency_score = 97 := by
    unfold analyze_fluency
    rw [if_neg (by decide)]
    have hfe : featuresOf docETI "eta theta iota" =
        ⟨3, 1, 0, [], 0, 0, 0, 0, 0, [3], 1, 0, []⟩ := by decide
    rw [hfe]
    unfold reportFromFeatures
    dsimp only
    norm_num [scoreFormula, fillerRateOf, pyInt, min_def, max_def]
  rw [hfl]
  have hemo : (emotionSegmentsOf overTimeline).2.2 = some ⟨3/10, 5, 4/10⟩ := by
    unfold emotionSegmentsOf overTimeline
    rw [if_neg (by decide)]
    dsimp only
    norm_num [avg_emotions]
  rw [hemo]
  unfold combinedScore
  simp only [Option.map_some', Option.getD_some]
  norm_num [pyInt]

/-- C5 amended: past both degenerate gates, a missing or empty emotion
timeline leaves the three per-segment emotion dictionaries EMPTY (they do
not hold the fallback constants {stress 0.3, confidence 0.5, neutral
0.4}); the combined score of each segment then blends with the 0.5 confidence
default.  The fallback constants appear only for an empty segment slice of
a non-empty timeline. -/
theorem empty_timeline_fallback :
    ∀ (docOf : String → Doc) (t : String) (d : ℚ),
      30 ≤ (pyStrip t).length → 9 ≤ (pySplit t).length →
      (track_confidence docOf t [] d).emotion_segments =
        (none, none, none) ∧
      (track_confidence docOf t [] d).beginning_score =
        pyInt (((analyze_fluency (docOf (partsOf t).1) (partsOf t).1
          (if 0 < d then d / 3 else 0)).fluency_score : ℚ) * (6/10) +
          (1/2) * 100 * (4/10)) ∧
      (track_confidence docOf t [] d).middle_score =
        pyInt (((analyze_fluency (docOf (partsOf t).2.1) (partsOf t).2.1
          (if 0 < d then d / 3 else 0)).fluency_score : ℚ) * (6/10) +
          (1/2) * 100 * (4/10)) ∧
      (track_confidence docOf t [] d).end_score =
        pyInt (((analyze_fluency (docOf (partsOf t).2.2) (partsOf t).2.2
          (if 0 < d then d / 3 else 0)).fluency_score : ℚ) * (6/10) +
          (1/2) * 100 * (4/10)) := by
  intro docOf t d h30 h9
  have hg1 : ¬(t = "" ∨ (pyStrip t).length < 30) := by
    have he : (pyStrip "").length = 0 := by decide
    rintro (rfl | hlt) <;> omega
  have hg2 : ¬((pySplit t).length < 9) := by omega
  unfold track_confidence
  rw [if_neg hg1, if_neg hg2]
  dsimp only [segScoresOf]
  refine ⟨rfl, ?_, ?_, ?_⟩ <;> rfl

/-- Witness for C5 (amended) at the nine-word transcript with an empty
timeline. -/
theorem empty_timeline_fallback_witness :
    (track_confidence nineWordDocOf nineWordTranscript [] 0).emotion_segments =
      (none, none, none) ∧
    (track_confidence nineWordDocOf nineWordTranscript [] 0).beginning_score =
      pyInt (((analyze_fluency (nineWordDocOf (partsOf nineWordTranscript).1)
        (partsOf nineWordTranscript).1
        (if (0 : ℚ) < 0 then (0 : ℚ) / 3 else 0)).fluency_score : ℚ) * (6/10) +
        (1/2) * 100 * (4/10)) ∧
    (track_confidence nineWordDocOf nineWordTranscript [] 0).middle_score =
      pyInt (((analyze_fluency (nineWordDocOf (partsOf nineWordTranscript).2.1)
        (partsOf nineWordTranscript).2.1
        (if (0 : ℚ) < 0 then (0 : ℚ) / 3 else 0)).fluency_score : ℚ) * (6/10) +
        (1/2) * 100 * (4/10)) ∧
    (track_confidence nineWordDocOf nineWordTranscript [] 0).end_score =
      pyInt (((analyze_fluency (nineWordDocOf (partsOf nineWordTranscript).2.2)
        (partsOf nineWordTranscript).2.2
        (if (0 : ℚ) < 0 then (0 : ℚ) / 3 else 0)).fluency_score : ℚ) * (6/10) +
        (1/2) * 100 * (4/10)) :=
  empty_timeline_fallback nineWordDocOf nineWordTranscript 0 (by decide)
    (by decide)

/-- C5 counterexample: with an empty timeline the emotion segments of the
returned TrendReport are the three empty dictionaries, not the fallback
constants the claim asserts. -/
theorem empty_timeline_fallback_counterexample :
    (track_confidence nineWordDocOf nineWordTranscript [] 0).emotion_segments =
      (none, none, none) ∧
    (track_confidence nineWordDocOf nineWordTranscript [] 0).emotion_segments ≠
      (some ⟨3/10, 1/2, 4/10⟩, some ⟨3/10, 1/2, 4/10⟩,
       some ⟨3/10, 1/2, 4/10⟩) := by
  have h : (track_confidence nineWordDocOf nineWordTranscript
      [] 0).emotion_segments = (none, none, none) := by
    unfold track_confidence
    rw [if_neg (by decide), if_neg (by decide)]
    rfl
  refine ⟨h, ?_⟩
  rw [h]
  simp
